import Mathlib

/-!
Verification development for the Airline Route Profitability Analysis
repository.  The repository ships a CLI driver (`analysis.py`) and a test
suite (`test_analyzer.py`); the analyzer core (`airline_analyzer.py`,
class `AirlineRouteAnalyzer`) is not part of the checked-in sources, so
its data model and operations are modelled from the specification
(`spec.md`) and verified against the properties the spec and the tests
state.  The CLI driver `main` in `analysis.py` is embedded directly from
its source.

Conventions: Python floats are modelled as rationals (`ℚ`); raising an
exception is modelled as returning `Except.error`; the ambient random
state is modelled as an explicit seed threaded through a deterministic
pseudo-random generator, as the design notes of the spec require.
-/

namespace AirlineAnalysis

/-- Modelled from the spec: an entry of the fixed airport catalog, tagged
with a hub tier (`hub_status` ∈ Major/Medium/Minor), matching the
the hub_status dicts passed to the classification helper. -/
structure Airport where
  code : String
  hub_status : String
deriving Repr, DecidableEq

/-- Modelled from the spec: the fixed airport catalog of the network model
(spec §4.1 step 1), each airport tagged with a hub tier. -/
def airports : List Airport :=
  [⟨"ATL", "Major"⟩, ⟨"ORD", "Major"⟩, ⟨"DEN", "Medium"⟩,
   ⟨"AUS", "Medium"⟩, ⟨"BOI", "Minor"⟩]

/-- Modelled from the spec: the precomputed pairwise-distance table keyed
by airport pair (spec §3: `distance_miles` is derived from a distance
table keyed by airport pair). Stored once per unordered pair. -/
def distanceTable : List ((String × String) × ℚ) :=
  [(("ATL", "ORD"), 606), (("ATL", "DEN"), 1199), (("ATL", "AUS"), 813),
   (("ATL", "BOI"), 1837), (("ORD", "DEN"), 888), (("ORD", "AUS"), 978),
   (("ORD", "BOI"), 1437), (("DEN", "AUS"), 775), (("DEN", "BOI"), 649),
   (("AUS", "BOI"), 1296)]

/-- Modelled from the spec: distance lookup for a directed airport pair,
symmetric in the two codes, with a positive default for pairs missing
from the table. -/
def distanceMiles (o d : String) : ℚ :=
  match distanceTable.lookup (o, d) with
  | some x => x
  | none =>
    match distanceTable.lookup (d, o) with
    | some x => x
    | none => 500

/-- Modelled from the spec: `_classify_route(origin_info, dest_info)`
returns `"{OriginTier}-{DestTier}"`, a pure function of the two hub
tiers, origin tier first (spec §4.1 step 3). -/
def classifyRoute (origin_info dest_info : Airport) : String :=
  origin_info.hub_status ++ "-" ++ dest_info.hub_status

/-- Modelled from the spec: base monthly seasonality curve, months 1..12,
with the summer peak (Jun–Aug) above the winter trough (Jan–Feb). -/
def baseSeasonal : List ℚ :=
  [17/20, 4/5, 19/20, 1, 21/20, 6/5, 5/4, 6/5, 1, 19/20, 9/10, 21/20]

/-- Modelled from the spec: how strongly a route class follows the
seasonal curve (business-heavy Major-Major routes are flattest, leisure
Minor-Minor routes the most seasonal); always in (0, 1]. -/
def classAmplitude (route_class : String) : ℚ :=
  if route_class = "Major-Major" then 1/2
  else if route_class = "Minor-Minor" then 1
  else 4/5

/-- Modelled from the spec: `_get_seasonal_factor(month, route_class)`,
the strictly positive demand multiplier for a month and route class
(spec §4.1 step 4). -/
def getSeasonalFactor (month : ℕ) (route_class : String) : ℚ :=
  1 + (baseSeasonal.getD (month - 1) 1 - 1) * classAmplitude route_class

/-- Modelled from the spec: the uncontrolled ambient randomness of
`generate_sample_data`, rendered as a linear congruential generator over
an explicit seed (spec §9 design note on randomness). -/
def lcg (s : ℕ) : ℕ := (s * 1103515245 + 12345) % 4294967296

/-- Modelled from the spec: the n-th bounded noise draw for a seed, an
integer percentage offset in [0, 20]. -/
def noisePct (seed n : ℕ) : ℕ := lcg (seed + n * 2654435761) % 21

/-- Modelled from the spec: bounded multiplicative random noise in
[0.9, 1.1] (spec §4.1 step 4: "Apply bounded random noise"). -/
def noiseFactor (seed n : ℕ) : ℚ := (90 + (noisePct seed n : ℚ)) / 100

/-- Modelled from the spec: aircraft capacity class assigned from route
distance (short routes get smaller aircraft, spec §4.1 step 2). -/
def aircraftTypeFor (dist : ℚ) : String :=
  if dist < 800 then "Regional"
  else if dist < 1500 then "Narrowbody"
  else "Widebody"

/-- Modelled from the spec: seat capacity of each aircraft type. -/
def aircraftCapacity (t : String) : ℕ :=
  if t = "Regional" then 76
  else if t = "Narrowbody" then 180
  else 300

/-- Modelled from the spec: daily flight count from the two hub tiers
(busier hub pairings fly more often); always positive. -/
def dailyFlightsFor (o d : Airport) : ℕ :=
  if o.hub_status = "Major" ∧ d.hub_status = "Major" then 8
  else if o.hub_status = "Minor" ∨ d.hub_status = "Minor" then 2
  else 4

/-- Modelled from the spec: a Route record (spec §3), one per generated
directed airport pair. -/
structure Route where
  route_id : String
  origin : String
  destination : String
  distance_miles : ℚ
  flight_time_hours : ℚ
  daily_flights : ℕ
  aircraft_type : String
  route_class : String
deriving Repr, DecidableEq

/-- Modelled from the spec: build the Route record for one directed
airport pair (spec §4.1 steps 2–3). -/
def mkRoute (o d : Airport) : Route :=
  let dist := distanceMiles o.code d.code
  { route_id := o.code ++ "-" ++ d.code
    origin := o.code
    destination := d.code
    distance_miles := dist
    flight_time_hours := dist / 500 + 1/2
    daily_flights := dailyFlightsFor o d
    aircraft_type := aircraftTypeFor dist
    route_class := classifyRoute o d }

/-- Modelled from the spec: the generated route list — the exhaustive set
of directed airport pairs with origin ≠ destination (self-pairs excluded
at generation, spec §4.1). -/
def generateRoutes : List Route :=
  ((airports.product airports).filter
    (fun p => p.1.code ≠ p.2.code)).map (fun p => mkRoute p.1 p.2)

/-- Modelled from the spec: a monthly passenger record (spec §3), keyed by
(route_id, month). -/
structure PassengerRecord where
  route_id : String
  month : ℕ
  passengers : ℕ
  load_factor : ℚ
  avg_ticket_price : ℚ
  revenue : ℚ
deriving Repr, DecidableEq

/-- Modelled from the spec: a per-route cost record (spec §3), one per
route; `total_cost_per_flight` is always the arithmetic sum of the four
components, never independently generated. -/
structure CostRecord where
  route_id : String
  fuel_cost_per_flight : ℚ
  crew_cost_per_flight : ℚ
  maintenance_cost_per_flight : ℚ
  airport_fees_per_flight : ℚ
  total_cost_per_flight : ℚ
  monthly_cost : ℚ
deriving Repr, DecidableEq

/-- Modelled from the spec: a monthly fuel-price-index entry (spec §3),
independent of routes. -/
structure FuelRecord where
  month : ℕ
  price_index : ℚ
deriving Repr, DecidableEq

/-- The months of one generated year. -/
def months : List ℕ := [1, 2, 3, 4, 5, 6, 7, 8, 9, 10, 11, 12]

/-- Clamp a rational into [lo, hi]. -/
def clamp (x lo hi : ℚ) : ℚ := max lo (min hi x)

/-- Modelled from the spec: the base load factor before seasonal and noise
modulation. -/
def baseLoadFactor : ℚ := 7/10

/-- Modelled from the spec: distance- and class-based base fare
(spec §4.1 step 4), strictly positive for nonnegative distances. -/
def baseFare (dist : ℚ) (route_class : String) : ℚ :=
  50 + dist * (1/10 + classAmplitude route_class / 20)

/-- Modelled from the spec: the passenger record of route `r` (the `i`-th
generated route) for one month — base demand from capacity × daily
flights, modulated by the seasonal factor and bounded noise, load factor
clamped to [0, 1], revenue = passengers × avg_ticket_price
(spec §4.1 step 4). -/
def mkPassengerRecord (seed i : ℕ) (r : Route) (month : ℕ) : PassengerRecord :=
  let sf := getSeasonalFactor month r.route_class
  let lf := clamp (baseLoadFactor * sf * noiseFactor seed ((i * 12 + month) * 4)) 0 1
  let seats : ℕ := aircraftCapacity r.aircraft_type * r.daily_flights * 30
  let pax : ℕ := ((lf * seats).floor).toNat
  let price := baseFare r.distance_miles r.route_class * sf *
    noiseFactor seed ((i * 12 + month) * 4 + 1)
  { route_id := r.route_id
    month := month
    passengers := pax
    load_factor := lf
    avg_ticket_price := price
    revenue := pax * price }

/-- Modelled from the spec: the passenger table — 12 monthly records per
generated route. -/
def generatePassengerData (seed : ℕ) : List PassengerRecord :=
  generateRoutes.enum.flatMap
    (fun p => months.map (mkPassengerRecord seed p.1 p.2))

/-- Modelled from the spec: the 12 monthly fuel-price-index entries with a
mild upward trend plus bounded noise; always strictly positive. -/
def generateFuelData (seed : ℕ) : List FuelRecord :=
  months.map (fun m => ⟨m, 3 * (95 + m + (noisePct seed (1000 + m) : ℚ)) / 100⟩)

/-- Modelled from the spec: the mean of the 12 monthly fuel price
indices, used to price the per-flight fuel burn of a route. -/
def avgFuelIndex (seed : ℕ) : ℚ :=
  ((generateFuelData seed).map (fun f => f.price_index)).sum / 12

/-- Modelled from the spec: gallons of fuel burned per mile for each
aircraft type. -/
def fuelBurnPerMile (t : String) : ℚ :=
  if t = "Regional" then 1 else if t = "Narrowbody" then 5/2 else 5

/-- Modelled from the spec: hourly crew cost for each aircraft type. -/
def crewCostPerHour (t : String) : ℚ :=
  if t = "Regional" then 600 else if t = "Narrowbody" then 1200 else 2500

/-- Modelled from the spec: hourly maintenance cost for each aircraft
type. -/
def maintCostPerHour (t : String) : ℚ :=
  if t = "Regional" then 400 else if t = "Narrowbody" then 900 else 1800

/-- Modelled from the spec: per-flight airport fees for each aircraft
type (landing fees scale with aircraft weight class). -/
def airportFeesFor (t : String) : ℚ :=
  if t = "Regional" then 300 else if t = "Narrowbody" then 800 else 2000

/-- Modelled from the spec: the cost record of one route — the four
components from distance, aircraft type and the monthly fuel index, then
`total_cost_per_flight` as their sum and `monthly_cost` as total × daily
flights × 30 (spec §4.1 step 5). -/
def mkCostRecord (seed : ℕ) (r : Route) : CostRecord :=
  let fuel := r.distance_miles * fuelBurnPerMile r.aircraft_type * avgFuelIndex seed
  let crew := crewCostPerHour r.aircraft_type * r.flight_time_hours
  let maint := maintCostPerHour r.aircraft_type * r.flight_time_hours
  let fees := airportFeesFor r.aircraft_type
  let total := fuel + crew + maint + fees
  { route_id := r.route_id
    fuel_cost_per_flight := fuel
    crew_cost_per_flight := crew
    maintenance_cost_per_flight := maint
    airport_fees_per_flight := fees
    total_cost_per_flight := total
    monthly_cost := total * r.daily_flights * 30 }

/-- Modelled from the spec: the cost table — one record per generated
route. -/
def generateCostData (seed : ℕ) : List CostRecord :=
  generateRoutes.map (mkCostRecord seed)

/-- Modelled from the spec: a derived per-route profitability record
(spec §3). -/
structure ProfitabilityRecord where
  route_id : String
  route_class : String
  revenue : ℚ
  passengers : ℕ
  load_factor : ℚ
  cost : ℚ
  profit : ℚ
  profit_margin : ℚ
  roi : ℚ
deriving Repr, DecidableEq

/-- Modelled from the spec: the profitability computation (spec §4.2) —
an inner join of Routes, PassengerRecords (grouped and summed by
route_id) and CostRecords (annualized); `profit_margin` and `roi` fall
back to 0 on zero denominators, never a division fault. -/
def calcProfitability (routes : List Route) (pax : List PassengerRecord)
    (costs : List CostRecord) : List ProfitabilityRecord :=
  routes.filterMap (fun r =>
    let prs := pax.filter (fun p => p.route_id = r.route_id)
    match costs.find? (fun c => c.route_id = r.route_id) with
    | none => none
    | some c =>
      if prs.isEmpty then none
      else
        let revenue := (prs.map (fun p => p.revenue)).sum
        let cost := c.monthly_cost * 12
        let profit := revenue - cost
        some { route_id := r.route_id
               route_class := r.route_class
               revenue := revenue
               passengers := (prs.map (fun p => p.passengers)).sum
               load_factor := (prs.map (fun p => p.load_factor)).sum / prs.length
               cost := cost
               profit := profit
               profit_margin := if revenue = 0 then 0 else profit / revenue * 100
               roi := if cost = 0 then 0 else profit / cost * 100 })

/-- Modelled from the spec: the four tables of the analyzer, process-scoped
state populated by one generation pass; `none` before any generation. -/
structure AirlineRouteAnalyzer where
  routes_data : Option (List Route)
  passenger_data : Option (List PassengerRecord)
  cost_data : Option (List CostRecord)
  fuel_data : Option (List FuelRecord)
deriving Repr, DecidableEq

/-- A freshly constructed analyzer: no table has been generated. -/
def AirlineRouteAnalyzer.new : AirlineRouteAnalyzer :=
  ⟨none, none, none, none⟩

/-- Modelled from the spec: the distinct, catchable uninitialized-state
condition raised when an aggregation runs before generation (the Python
tests accept it as AttributeError/TypeError on the `None` tables). -/
inductive AnalyzerError where
  | uninitialized
deriving Repr, DecidableEq

/-- Modelled from the spec: `generate_sample_data()` — one generation
pass that (re)defines all four tables, discarding previous state
(spec §4.1). -/
def generate_sample_data (seed : ℕ) (_a : AirlineRouteAnalyzer) :
    AirlineRouteAnalyzer :=
  { routes_data := some generateRoutes
    passenger_data := some (generatePassengerData seed)
    cost_data := some (generateCostData seed)
    fuel_data := some (generateFuelData seed) }

/-- Modelled from the spec: `calculate_profitability()` — fails with the
uninitialized-state condition if any input table is missing, otherwise
computes the profitability table (spec §4.2). -/
def calculate_profitability (a : AirlineRouteAnalyzer) :
    Except AnalyzerError (List ProfitabilityRecord) :=
  match a.routes_data, a.passenger_data, a.cost_data with
  | some r, some p, some c => .ok (calcProfitability r p c)
  | _, _, _ => .error .uninitialized

/-- A route summary row of the insight report. -/
structure RouteSummary where
  route_id : String
  profit : ℚ
  profit_margin : ℚ
  roi : ℚ
deriving Repr, DecidableEq

/-- Summary statistics of the insight report (spec §4.3). -/
structure SummaryStats where
  total_routes : ℕ
  profitable_routes : ℕ
  average_profit_margin : ℚ
  total_annual_profit : ℚ
  average_load_factor : ℚ
deriving Repr, DecidableEq

/-- Modelled from the spec: the insight report (spec §4.3). -/
structure InsightReport where
  most_profitable_routes : List RouteSummary
  least_profitable_routes : List RouteSummary
  highest_roi_routes : List RouteSummary
  route_type_performance : List (String × ℚ)
  summary_stats : SummaryStats
deriving Repr, DecidableEq

/-- Insert into a list kept sorted descending by the key. -/
def insertDescBy (key : ProfitabilityRecord → ℚ) (x : ProfitabilityRecord) :
    List ProfitabilityRecord → List ProfitabilityRecord
  | [] => [x]
  | y :: ys =>
    if key y ≤ key x then x :: y :: ys else y :: insertDescBy key x ys

/-- Sort a profitability table descending by the key (insertion sort). -/
def sortDescBy (key : ProfitabilityRecord → ℚ)
    (l : List ProfitabilityRecord) : List ProfitabilityRecord :=
  l.foldr (insertDescBy key) []

/-- Project one profitability record onto its insight summary row. -/
def toSummary (r : ProfitabilityRecord) : RouteSummary :=
  ⟨r.route_id, r.profit, r.profit_margin, r.roi⟩

/-- Modelled from the spec: aggregate mean profit per route class
(spec §4.3 route_type_performance). -/
def routeTypePerformance (table : List ProfitabilityRecord) :
    List (String × ℚ) :=
  ((table.map (fun r => r.route_class)).dedup).map (fun c =>
    let grp := table.filter (fun r => r.route_class = c)
    (c, (grp.map (fun r => r.profit)).sum / grp.length))

/-- Modelled from the spec: build the insight report from a computed
profitability table (spec §4.3). -/
def insightsFrom (table : List ProfitabilityRecord) : InsightReport :=
  let byProfit := sortDescBy (fun r => r.profit) table
  { most_profitable_routes := byProfit.map toSummary
    least_profitable_routes := byProfit.reverse.map toSummary
    highest_roi_routes := (sortDescBy (fun r => r.roi) table).map toSummary
    route_type_performance := routeTypePerformance table
    summary_stats :=
      { total_routes := table.length
        profitable_routes := (table.filter (fun r => 0 < r.profit)).length
        average_profit_margin :=
          (table.map (fun r => r.profit_margin)).sum / table.length
        total_annual_profit := (table.map (fun r => r.profit)).sum
        average_load_factor :=
          (table.map (fun r => r.load_factor)).sum / table.length } }

/-- Modelled from the spec: `generate_insights()` — requires the
profitability computation (runs it implicitly), so it fails with the same
uninitialized-state condition before generation (spec §4.3). -/
def generate_insights (a : AirlineRouteAnalyzer) :
    Except AnalyzerError InsightReport :=
  (calculate_profitability a).map insightsFrom

/-- One recommendation bucket: an ordered sequence of route identifiers
plus a human-readable rationale (spec §4.4). -/
structure Bucket where
  routes : List String
  rationale : String
deriving Repr, DecidableEq

/-- Modelled from the spec: the three recommendation buckets (spec §4.4). -/
structure RecommendationSet where
  expand_routes : Bucket
  optimize_routes : Bucket
  consider_discontinuing : Bucket
deriving Repr, DecidableEq

/-- Modelled from the spec: the explicit "attractive" profit-margin
threshold of the recommendation policy (percent). -/
def marginThreshold : ℚ := 15

/-- Modelled from the spec: the explicit "attractive" ROI threshold of
the recommendation policy (percent). -/
def roiThreshold : ℚ := 20

/-- A route is an expansion candidate: margin and ROI both above the
attractive thresholds (spec §4.4). -/
def isExpand (r : ProfitabilityRecord) : Bool :=
  marginThreshold < r.profit_margin ∧ roiThreshold < r.roi

/-- A route is loss-making: profit ≤ 0 (spec §4.4). -/
def isDiscontinue (r : ProfitabilityRecord) : Bool :=
  r.profit ≤ 0

/-- A route is an optimization candidate: positive but below-threshold
profitability (spec §4.4). -/
def isOptimize (r : ProfitabilityRecord) : Bool :=
  0 < r.profit ∧ ¬(marginThreshold < r.profit_margin ∧ roiThreshold < r.roi)

/-- Modelled from the spec: classify every row of the profitability table
into the three buckets (spec §4.4). -/
def recommendationsFrom (table : List ProfitabilityRecord) :
    RecommendationSet :=
  { expand_routes :=
      ⟨(table.filter isExpand).map (fun r => r.route_id),
       "High margin and ROI: candidates for capacity growth"⟩
    optimize_routes :=
      ⟨(table.filter isOptimize).map (fun r => r.route_id),
       "Positive but below-threshold profitability: adjust cost or pricing"⟩
    consider_discontinuing :=
      ⟨(table.filter isDiscontinue).map (fun r => r.route_id),
       "Loss-making routes"⟩ }

/-- Modelled from the spec: `generate_recommendations()` — requires the
profitability computation (runs it implicitly), so it fails with the same
uninitialized-state condition before generation (spec §4.4). -/
def generate_recommendations (a : AirlineRouteAnalyzer) :
    Except AnalyzerError RecommendationSet :=
  (calculate_profitability a).map recommendationsFrom

/-- How many of the route lists of the three buckets contain a route id, with
multiplicity. -/
def bucketCount (R : RecommendationSet) (rid : String) : ℕ :=
  R.expand_routes.routes.count rid + R.optimize_routes.routes.count rid +
    R.consider_discontinuing.routes.count rid

/-! ## CLI driver (`analysis.py`, `main`)

`main` parses `--use-sample-data` and `--no-viz`, then runs the pipeline
inside one `try` block: optional warning + `generate_sample_data`,
`calculate_profitability`, `generate_insights`, optional
`create_visualizations`, `generate_recommendations`, `export_results`;
any exception from the block is caught, logged, and turned into exit
code 1, success returns 0 (`src/analysis.py` lines 54–112).  Whether a
given analyzer call raises is abstracted as a `fails` oracle, since the
visualization/export collaborators are external to the spec. -/

/-- One analyzer call of the driver pipeline (`src/analysis.py`). -/
inductive PipelineStep where
  | generateData
  | calcProfit
  | genInsights
  | createViz
  | genRecs
  | exportResults
deriving Repr, DecidableEq

/-- An observable event of one `main` run: a warning log, an analyzer
call, or the error log of the `except` branch. -/
inductive Event where
  | warnRealDataUnimplemented
  | stepCall (s : PipelineStep)
  | errorLogged
deriving Repr, DecidableEq

/-- The parsed CLI flags of `analysis.py` that steer the pipeline. -/
structure CliArgs where
  use_sample_data : Bool
  no_viz : Bool
deriving Repr, DecidableEq

/-- The pipeline call sequence of the `try` block of `main`, in source order;
`create_visualizations` is skipped when `--no-viz` is set
(`src/analysis.py` lines 57–83). -/
def pipelineSeq (no_viz : Bool) : List PipelineStep :=
  [.generateData, .calcProfit, .genInsights] ++
    (if no_viz then [] else [.createViz]) ++ [.genRecs, .exportResults]

/-- Run the pipeline steps in order: each step is attempted (recorded as
a `stepCall`); the first raising step aborts the block, which the
`except` handler turns into an error log and exit code 1
(`src/analysis.py` lines 110–112). -/
def runSteps (fails : PipelineStep → Bool) :
    List PipelineStep → ℕ × List Event
  | [] => (0, [])
  | s :: rest =>
    if fails s then (1, [.stepCall s, .errorLogged])
    else
      let r := runSteps fails rest
      (r.1, .stepCall s :: r.2)

/-- The driver `main` (`src/analysis.py` lines 40–112): when
`--use-sample-data` is absent it logs the "real data loading not
implemented" warning and falls back to `generate_sample_data`; then the
pipeline runs inside the `try` block and `main` returns the process exit
code together with the event trace of the run. -/
def main_model (args : CliArgs) (fails : PipelineStep → Bool) :
    ℕ × List Event :=
  let r := runSteps fails (pipelineSeq args.no_viz)
  (r.1,
   (if args.use_sample_data then [] else [.warnRealDataUnimplemented]) ++ r.2)

/-- The analyzer calls of an event trace, in order. -/
def traceSteps (tr : List Event) : List PipelineStep :=
  tr.filterMap (fun e =>
    match e with
    | .stepCall s => some s
    | _ => none)

/-! ## Helper lemmas -/

/-- The bounded noise draw is at most 20 percentage points. -/
theorem noisePct_le (seed n : ℕ) : noisePct seed n ≤ 20 :=
  Nat.lt_succ_iff.mp (Nat.mod_lt _ (by norm_num))

/-- The multiplicative noise lies in [0.9, 1.1]. -/
theorem noiseFactor_bounds (seed n : ℕ) :
    9/10 ≤ noiseFactor seed n ∧ noiseFactor seed n ≤ 11/10 := by
  unfold noiseFactor
  have h0 : (0 : ℚ) ≤ (noisePct seed n : ℚ) := Nat.cast_nonneg _
  have h1 : (noisePct seed n : ℚ) ≤ 20 := by
    have := noisePct_le seed n
    exact_mod_cast this
  constructor <;> [linarith; linarith]

/-- The multiplicative noise is strictly positive. -/
theorem noiseFactor_pos (seed n : ℕ) : 0 < noiseFactor seed n :=
  lt_of_lt_of_le (by norm_num) (noiseFactor_bounds seed n).1

/-- The class amplitude is always in (0, 1]. -/
theorem classAmplitude_bounds (c : String) :
    0 < classAmplitude c ∧ classAmplitude c ≤ 1 := by
  unfold classAmplitude
  split <;> [skip; split] <;> norm_num

/-- Every point of the base seasonal curve a month can see lies in
[4/5, 5/4]. -/
theorem baseSeasonal_getD_bounds (k : ℕ) :
    4/5 ≤ baseSeasonal.getD k 1 ∧ baseSeasonal.getD k 1 ≤ 5/4 := by
  by_cases hk : k < baseSeasonal.length
  · rw [List.getD_eq_getElem baseSeasonal 1 hk]
    have hmem : baseSeasonal[k] ∈ baseSeasonal := List.getElem_mem hk
    have hall : ∀ x ∈ baseSeasonal, 4/5 ≤ x ∧ x ≤ 5/4 := by
      intro x hx
      fin_cases hx <;> norm_num
    exact hall _ hmem
  · rw [List.getD_eq_default baseSeasonal 1 (le_of_not_lt hk)]
    norm_num

/-- The seasonal factor is strictly positive for every month and every
route class. -/
theorem getSeasonalFactor_pos (month : ℕ) (c : String) :
    0 < getSeasonalFactor month c := by
  unfold getSeasonalFactor
  obtain ⟨hb1, hb2⟩ := baseSeasonal_getD_bounds (month - 1)
  obtain ⟨ha1, ha2⟩ := classAmplitude_bounds c
  nlinarith

/-- A successful lookup in a table of positive values is positive. -/
theorem lookup_pos {t : List ((String × String) × ℚ)}
    (h : ∀ e ∈ t, 0 < e.2) {k : String × String} {x : ℚ}
    (hx : t.lookup k = some x) : 0 < x := by
  obtain ⟨l₁, l₂, rfl, -⟩ := List.lookup_eq_some_iff.mp hx
  exact h (k, x) (List.mem_append_right l₁ (List.mem_cons_self _ _))

/-- Every entry of the distance table is positive. -/
theorem distanceTable_pos : ∀ e ∈ distanceTable, 0 < e.2 := by
  intro e he
  fin_cases he <;> norm_num

/-- The distance between any two airport codes is positive. -/
theorem distanceMiles_pos (o d : String) : 0 < distanceMiles o d := by
  unfold distanceMiles
  cases h1 : distanceTable.lookup (o, d) with
  | some x => exact lookup_pos distanceTable_pos h1
  | none =>
    cases h2 : distanceTable.lookup (d, o) with
    | some x => exact lookup_pos distanceTable_pos h2
    | none => norm_num

/-- Membership in the generated route list comes from a pair of distinct
catalog airports. -/
theorem mem_generateRoutes {r : Route} (hr : r ∈ generateRoutes) :
    ∃ o d : Airport, o ∈ airports ∧ d ∈ airports ∧ o.code ≠ d.code ∧
      r = mkRoute o d := by
  unfold generateRoutes at hr
  obtain ⟨p, hp, rfl⟩ := List.mem_map.mp hr
  obtain ⟨hpm, hne⟩ := List.mem_filter.mp hp
  obtain ⟨h1, h2⟩ := List.mem_product.mp hpm
  exact ⟨p.1, p.2, h1, h2, by simpa using hne, rfl⟩

/-- Every generated route has positive distance, flight time and daily
flights. -/
theorem generateRoutes_fields :
    ∀ r ∈ generateRoutes,
      0 < r.distance_miles ∧ 0 < r.flight_time_hours ∧ 0 < r.daily_flights := by
  intro r hr
  obtain ⟨o, d, -, -, -, rfl⟩ := mem_generateRoutes hr
  have hdist := distanceMiles_pos o.code d.code
  refine ⟨hdist, by simp only [mkRoute]; linarith, ?_⟩
  simp only [mkRoute, dailyFlightsFor]
  split <;> [norm_num; split <;> norm_num]

/-- The generated route ids are pairwise distinct. -/
theorem generateRoutes_ids_nodup :
    (generateRoutes.map (fun r => r.route_id)).Nodup := by
  decide

/-! ## Claim theorems -/

/-- Claim C4: `_classify_route` is a pure function of the two hub tiers
returning `"{OriginTier}-{DestTier}"` with the origin tier first and the
destination tier second, never sorted; in particular it maps
(Major, Major) to "Major-Major" and (Major, Medium) to "Major-Medium",
while (Medium, Major) maps to "Medium-Major". -/
theorem classify_route_order_preserving :
    (∀ origin_info dest_info : Airport,
        classifyRoute origin_info dest_info =
          origin_info.hub_status ++ "-" ++ dest_info.hub_status) ∧
    classifyRoute ⟨"A", "Major"⟩ ⟨"B", "Major"⟩ = "Major-Major" ∧
    classifyRoute ⟨"A", "Major"⟩ ⟨"B", "Medium"⟩ = "Major-Medium" ∧
    classifyRoute ⟨"A", "Medium"⟩ ⟨"B", "Major"⟩ = "Medium-Major" ∧
    classifyRoute ⟨"A", "Medium"⟩ ⟨"B", "Major"⟩ ≠
      classifyRoute ⟨"B", "Major"⟩ ⟨"A", "Medium"⟩ := by
  refine ⟨fun o d => rfl, rfl, rfl, rfl, ?_⟩
  decide

/-- Claim C3: the seasonal factor is strictly positive for every month
in 1..12 and every route class, and for every route class each summer
month (June–August) strictly exceeds each winter month (January and
February); in particular month 7 exceeds month 2 for "Major-Major". -/
theorem seasonal_factor_pos_and_summer_gt_winter :
    (months.Forall (fun m => ∀ c : String, 0 < getSeasonalFactor m c)) ∧
    ([6, 7, 8].Forall (fun s => [1, 2].Forall (fun w =>
        ∀ c : String, getSeasonalFactor w c < getSeasonalFactor s c))) ∧
    getSeasonalFactor 2 "Major-Major" < getSeasonalFactor 7 "Major-Major" := by
  refine ⟨?_, ?_, ?_⟩
  · rw [List.forall_iff_forall_mem]
    exact fun m _ c => getSeasonalFactor_pos m c
  · rw [List.forall_iff_forall_mem]
    intro s hs
    rw [List.forall_iff_forall_mem]
    intro w hw c
    obtain ⟨ha1, _⟩ := classAmplitude_bounds c
    fin_cases hs <;> fin_cases hw <;>
      simp only [getSeasonalFactor, baseSeasonal] <;> norm_num <;> nlinarith
  · have := classAmplitude_bounds "Major-Major"
    simp only [getSeasonalFactor, baseSeasonal]
    norm_num
    nlinarith [this.1]

/-- Claim C1: on an analyzer on which `generate_sample_data` has not run
(so at least one input table is still missing), `calculate_profitability`,
`generate_insights` and `generate_recommendations` all fail with the
distinct uninitialized-state error rather than returning an empty or
default result. -/
theorem uninitialized_ops_error (a : AirlineRouteAnalyzer)
    (h : a.routes_data = none ∨ a.passenger_data = none ∨
      a.cost_data = none) :
    calculate_profitability a = .error .uninitialized ∧
    generate_insights a = .error .uninitialized ∧
    generate_recommendations a = .error .uninitialized := by
  have hcalc : calculate_profitability a = .error .uninitialized := by
    unfold calculate_profitability
    cases hr : a.routes_data <;> cases hp : a.passenger_data <;>
      cases hc : a.cost_data <;> simp_all
  exact ⟨hcalc, by simp [generate_insights, hcalc, Except.map],
    by simp [generate_recommendations, hcalc, Except.map]⟩

/-- Claim C1 witness: a freshly constructed analyzer errors on all three
aggregation operations. -/
theorem uninitialized_ops_error_witness :
    calculate_profitability AirlineRouteAnalyzer.new = .error .uninitialized ∧
    generate_insights AirlineRouteAnalyzer.new = .error .uninitialized ∧
    generate_recommendations AirlineRouteAnalyzer.new =
      .error .uninitialized :=
  uninitialized_ops_error AirlineRouteAnalyzer.new (Or.inl rfl)

/-- Characterize a row of the profitability computation: it comes from a
route whose cost record was found and whose passenger rows are nonempty,
and its derived fields satisfy the defining equations of the join. -/
theorem calcProfitability_mem {routes : List Route}
    {pax : List PassengerRecord} {costs : List CostRecord}
    {rec : ProfitabilityRecord}
    (hm : rec ∈ calcProfitability routes pax costs) :
    ∃ r ∈ routes,
      rec.route_id = r.route_id ∧ rec.route_class = r.route_class ∧
      rec.revenue =
        ((pax.filter (fun p => p.route_id = r.route_id)).map
          (fun p => p.revenue)).sum ∧
      rec.profit = rec.revenue - rec.cost ∧
      rec.profit_margin =
        (if rec.revenue = 0 then 0 else rec.profit / rec.revenue * 100) ∧
      rec.roi = (if rec.cost = 0 then 0 else rec.profit / rec.cost * 100) := by
  unfold calcProfitability at hm
  obtain ⟨r, hr, hfr⟩ := List.mem_filterMap.mp hm
  refine ⟨r, hr, ?_⟩
  cases hfind : (costs.find? (fun c => c.route_id = r.route_id)) with
  | none => rw [hfind] at hfr; simp at hfr
  | some c =>
    rw [hfind] at hfr
    dsimp only at hfr
    by_cases hemp : (pax.filter (fun p => p.route_id = r.route_id)).isEmpty = true
    · rw [if_pos hemp] at hfr
      exact absurd hfr (by simp)
    · rw [if_neg hemp] at hfr
      injection hfr with h
      subst h
      exact ⟨rfl, rfl, rfl, rfl, rfl, rfl⟩

/-- Claim C6: any row of the profitability computation with zero revenue
has profit margin 0, and any row with zero cost has ROI 0 — the zero
denominators fall back to the defined value 0 and never reach a
division. -/
theorem zero_denominators_fall_back_to_zero
    (routes : List Route) (pax : List PassengerRecord)
    (costs : List CostRecord) (rec : ProfitabilityRecord)
    (hm : rec ∈ calcProfitability routes pax costs) :
    (rec.revenue = 0 → rec.profit_margin = 0) ∧
    (rec.cost = 0 → rec.roi = 0) := by
  obtain ⟨r, -, -, -, -, -, hmargin, hroi⟩ := calcProfitability_mem hm
  constructor
  · intro h0
    rw [hmargin, if_pos h0]
  · intro h0
    rw [hroi, if_pos h0]

/-- Claim C6 witness: a one-route table whose single passenger row sells
zero tickets yields a profitability row with zero revenue and zero cost,
and the computation defines its profit margin and ROI as 0. -/
theorem zero_denominators_fall_back_to_zero_witness :
    (⟨"X-Y", "Major-Major", 0, 0, 0, 0, 0, 0, 0⟩ : ProfitabilityRecord).profit_margin = 0 ∧
    (⟨"X-Y", "Major-Major", 0, 0, 0, 0, 0, 0, 0⟩ : ProfitabilityRecord).roi = 0 := by
  have hmem : (⟨"X-Y", "Major-Major", 0, 0, 0, 0, 0, 0, 0⟩ : ProfitabilityRecord) ∈
      calcProfitability
        [⟨"X-Y", "X", "Y", 100, 1, 1, "Regional", "Major-Major"⟩]
        [⟨"X-Y", 1, 0, 0, 5, 0⟩]
        [⟨"X-Y", 1, 1, 1, 1, 4, 0⟩] := by
    simp [calcProfitability, List.find?, List.filter]
  have h := zero_denominators_fall_back_to_zero
    [⟨"X-Y", "X", "Y", 100, 1, 1, "Regional", "Major-Major"⟩]
    [⟨"X-Y", 1, 0, 0, 5, 0⟩]
    [⟨"X-Y", 1, 1, 1, 1, 4, 0⟩]
    ⟨"X-Y", "Major-Major", 0, 0, 0, 0, 0, 0, 0⟩ hmem
  exact ⟨h.1 rfl, h.2 rfl⟩

/-- The mean fuel price index of a generated year is positive. -/
theorem avgFuelIndex_pos (seed : ℕ) : 0 < avgFuelIndex seed := by
  unfold avgFuelIndex generateFuelData
  rw [List.map_map]
  have hpos : ∀ x ∈ months.map (fun m =>
      ((3 : ℚ) * (95 + m + (noisePct seed (1000 + m) : ℚ)) / 100)), 0 < x := by
    intro x hx
    obtain ⟨m, -, rfl⟩ := List.mem_map.mp hx
    have h1 : (0 : ℚ) ≤ (m : ℚ) := Nat.cast_nonneg m
    have h2 : (0 : ℚ) ≤ (noisePct seed (1000 + m) : ℚ) := Nat.cast_nonneg _
    linarith
  have hne : months.map (fun m =>
      ((3 : ℚ) * (95 + m + (noisePct seed (1000 + m) : ℚ)) / 100)) ≠ [] := by
    simp [months]
  have hsum := List.sum_pos _ hpos hne
  have : (0 : ℚ) < 12 := by norm_num
  positivity

/-- The per-mile fuel burn is positive for every aircraft type. -/
theorem fuelBurnPerMile_pos (t : String) : 0 < fuelBurnPerMile t := by
  unfold fuelBurnPerMile
  split <;> [norm_num; split <;> norm_num]

/-- The hourly crew cost is positive for every aircraft type. -/
theorem crewCostPerHour_pos (t : String) : 0 < crewCostPerHour t := by
  unfold crewCostPerHour
  split <;> [norm_num; split <;> norm_num]

/-- The hourly maintenance cost is positive for every aircraft type. -/
theorem maintCostPerHour_pos (t : String) : 0 < maintCostPerHour t := by
  unfold maintCostPerHour
  split <;> [norm_num; split <;> norm_num]

/-- The airport fees are positive for every aircraft type. -/
theorem airportFeesFor_pos (t : String) : 0 < airportFeesFor t := by
  unfold airportFeesFor
  split <;> [norm_num; split <;> norm_num]

/-- Claim C5: in every generated cost table each of the four cost
components is strictly positive and `total_cost_per_flight` is exactly
the sum of the four (hence within the 0.01 absolute tolerance), for
every route and every seed. -/
theorem cost_components_positive_and_total_is_sum (seed : ℕ) :
    (generateCostData seed).Forall (fun c =>
      0 < c.fuel_cost_per_flight ∧ 0 < c.crew_cost_per_flight ∧
      0 < c.maintenance_cost_per_flight ∧ 0 < c.airport_fees_per_flight ∧
      |c.total_cost_per_flight -
        (c.fuel_cost_per_flight + c.crew_cost_per_flight +
          c.maintenance_cost_per_flight + c.airport_fees_per_flight)| ≤
        1/100) := by
  rw [List.forall_iff_forall_mem]
  intro c hc
  obtain ⟨r, hr, rfl⟩ := List.mem_map.mp hc
  obtain ⟨hdist, htime, -⟩ := generateRoutes_fields r hr
  have hfuel : 0 < r.distance_miles * fuelBurnPerMile r.aircraft_type *
      avgFuelIndex seed :=
    mul_pos (mul_pos hdist (fuelBurnPerMile_pos _)) (avgFuelIndex_pos seed)
  have hcrew : 0 < crewCostPerHour r.aircraft_type * r.flight_time_hours :=
    mul_pos (crewCostPerHour_pos _) htime
  have hmaint : 0 < maintCostPerHour r.aircraft_type * r.flight_time_hours :=
    mul_pos (maintCostPerHour_pos _) htime
  refine ⟨hfuel, hcrew, hmaint, airportFeesFor_pos _, ?_⟩
  simp only [mkCostRecord]
  rw [sub_self, abs_zero]
  norm_num

/-- Membership in the generated passenger table comes from an enumerated
generated route and a month of the year. -/
theorem mem_generatePassengerData {seed : ℕ} {p : PassengerRecord}
    (hp : p ∈ generatePassengerData seed) :
    ∃ i : ℕ, ∃ r : Route, ∃ month : ℕ, r ∈ generateRoutes ∧
      month ∈ months ∧ p = mkPassengerRecord seed i r month := by
  unfold generatePassengerData at hp
  obtain ⟨pr, hpr, hpm⟩ := List.mem_flatMap.mp hp
  obtain ⟨month, hm, rfl⟩ := List.mem_map.mp hpm
  exact ⟨pr.1, pr.2, month, List.snd_mem_of_mem_enumFrom hpr, hm, rfl⟩

/-- Claim C7: after every generation pass, referential integrity holds —
the route_id of every passenger record and every cost record is drawn from
the generated Route table. -/
theorem referential_integrity (seed : ℕ) :
    (generatePassengerData seed).Forall (fun p =>
      p.route_id ∈ generateRoutes.map (fun r => r.route_id)) ∧
    (generateCostData seed).Forall (fun c =>
      c.route_id ∈ generateRoutes.map (fun r => r.route_id)) := by
  constructor
  · rw [List.forall_iff_forall_mem]
    intro p hp
    obtain ⟨i, r, month, hr, -, rfl⟩ := mem_generatePassengerData hp
    exact List.mem_map.mpr ⟨r, hr, rfl⟩
  · rw [List.forall_iff_forall_mem]
    intro c hc
    obtain ⟨r, hr, rfl⟩ := List.mem_map.mp hc
    exact List.mem_map.mpr ⟨r, hr, rfl⟩

/-- Clamping into [0, 1] lands in [0, 1]. -/
theorem clamp01_bounds (x : ℚ) : 0 ≤ clamp x 0 1 ∧ clamp x 0 1 ≤ 1 :=
  ⟨le_max_left _ _, max_le (by norm_num) (min_le_left _ _)⟩

/-- The base fare is positive whenever the distance is nonnegative. -/
theorem baseFare_pos (dist : ℚ) (c : String) (h : 0 ≤ dist) :
    0 < baseFare dist c := by
  unfold baseFare
  obtain ⟨ha1, ha2⟩ := classAmplitude_bounds c
  nlinarith

/-- Counting over a flatMap is the sum of the per-block counts. -/
theorem countP_flatMap_eq_sum {α β : Type} (p : β → Bool)
    (f : α → List β) :
    ∀ l : List α, (l.flatMap f).countP p = (l.map (fun a => (f a).countP p)).sum
  | [] => rfl
  | a :: l => by
    rw [List.flatMap_cons, List.countP_append, List.map_cons, List.sum_cons,
      countP_flatMap_eq_sum p f l]

/-- In a list of routes with pairwise-distinct ids, exactly one element
carries the id of a member. -/
theorem countP_route_id_eq_one {l : List Route}
    (hnd : (l.map (fun r => r.route_id)).Nodup) {r : Route} (hr : r ∈ l) :
    l.countP (fun x => x.route_id = r.route_id) = 1 := by
  induction l with
  | nil => cases hr
  | cons a l ih =>
    rw [List.map_cons, List.nodup_cons] at hnd
    rcases List.mem_cons.mp hr with rfl | hmem
    · rw [List.countP_cons_of_pos _ _ (by simp)]
      have hzero : l.countP (fun x => x.route_id = r.route_id) = 0 := by
        rw [List.countP_eq_zero]
        intro b hb
        simp only [decide_eq_true_eq]
        intro heq
        exact hnd.1 (heq ▸ List.mem_map_of_mem (fun x => x.route_id) hb)
      rw [hzero]
    · have hne : ¬(a.route_id = r.route_id) := by
        intro heq
        exact hnd.1 (heq ▸ List.mem_map_of_mem (fun x => x.route_id) hmem)
      rw [List.countP_cons_of_neg _ _ (by simpa using hne)]
      exact ih hnd.2 hmem

/-- The monthly block of one generated route contributes 12 records to its own
route id and none to any other. -/
theorem pax_block_countP (seed i : ℕ) (r : Route) (rid : String) :
    ((months.map (mkPassengerRecord seed i r)).countP
      (fun p => p.route_id = rid)) = if r.route_id = rid then 12 else 0 := by
  rw [List.countP_map]
  have : ((fun p : PassengerRecord => decide (p.route_id = rid)) ∘
      mkPassengerRecord seed i r) = fun _ => decide (r.route_id = rid) := rfl
  rw [this]
  by_cases h : r.route_id = rid
  · simp [h, months]
  · simp [h, months]

/-- Each generated route owns exactly 12 passenger records. -/
theorem generatePassengerData_count (seed : ℕ) {r : Route}
    (hr : r ∈ generateRoutes) :
    (generatePassengerData seed).countP
      (fun p => p.route_id = r.route_id) = 12 := by
  unfold generatePassengerData
  rw [countP_flatMap_eq_sum]
  have hmap : generateRoutes.enum.map
      (fun pr => ((months.map (mkPassengerRecord seed pr.1 pr.2)).countP
        (fun p => p.route_id = r.route_id)))
      = generateRoutes.map
        (fun x => if x.route_id = r.route_id then 12 else 0) := by
    have h1 : generateRoutes.enum.map
        (fun pr => ((months.map (mkPassengerRecord seed pr.1 pr.2)).countP
          (fun p => p.route_id = r.route_id)))
        = generateRoutes.enum.map
          ((fun x => if x.route_id = r.route_id then 12 else 0) ∘ Prod.snd) := by
      apply List.map_congr_left
      intro pr _
      exact pax_block_countP seed pr.1 pr.2 r.route_id
    rw [h1, ← List.map_map, List.enum_map_snd]
  rw [hmap]
  have hsum : ∀ l : List Route,
      (l.map (fun x => if x.route_id = r.route_id then 12 else 0)).sum
        = 12 * l.countP (fun x => x.route_id = r.route_id) := by
    intro l
    induction l with
    | nil => simp
    | cons a l ih =>
      by_cases h : a.route_id = r.route_id
      · rw [List.map_cons, List.sum_cons, if_pos h, ih,
          List.countP_cons_of_pos _ _ (by simpa using h)]
        ring
      · rw [List.map_cons, List.sum_cons, if_neg h, ih,
          List.countP_cons_of_neg _ _ (by simpa using h)]
        ring
  rw [hsum, countP_route_id_eq_one generateRoutes_ids_nodup hr]

/-- Claim C8: in every generated passenger table, every record has
load_factor in [0,1], a strictly positive average ticket price,
nonnegative passengers and revenue, and a month in 1..12; and every
generated route has exactly 12 records, one per month. -/
theorem passenger_records_invariants (seed : ℕ) :
    (generatePassengerData seed).Forall (fun p =>
      0 ≤ p.load_factor ∧ p.load_factor ≤ 1 ∧
      0 < p.avg_ticket_price ∧ 0 ≤ p.passengers ∧ 0 ≤ p.revenue ∧
      1 ≤ p.month ∧ p.month ≤ 12) ∧
    generateRoutes.Forall (fun r =>
      (generatePassengerData seed).countP
        (fun p => p.route_id = r.route_id) = 12) := by
  constructor
  · rw [List.forall_iff_forall_mem]
    intro p hp
    obtain ⟨i, r, month, hr, hm, rfl⟩ := mem_generatePassengerData hp
    obtain ⟨hdist, -, -⟩ := generateRoutes_fields r hr
    have hmonth : 1 ≤ month ∧ month ≤ 12 := by
      have : ∀ m ∈ months, 1 ≤ m ∧ m ≤ 12 := by decide
      exact this month hm
    have hlf := clamp01_bounds
      (baseLoadFactor * getSeasonalFactor month r.route_class *
        noiseFactor seed ((i * 12 + month) * 4))
    have hprice : 0 < baseFare r.distance_miles r.route_class *
        getSeasonalFactor month r.route_class *
        noiseFactor seed ((i * 12 + month) * 4 + 1) :=
      mul_pos (mul_pos (baseFare_pos _ _ (le_of_lt hdist))
        (getSeasonalFactor_pos _ _)) (noiseFactor_pos _ _)
    refine ⟨hlf.1, hlf.2, hprice, Nat.zero_le _, ?_, hmonth.1, hmonth.2⟩
    exact mul_nonneg (Nat.cast_nonneg _) (le_of_lt hprice)
  · rw [List.forall_iff_forall_mem]
    intro r hr
    exact generatePassengerData_count seed hr

/-- The profitability table of one full analysis run: the table
`calculate_profitability` produces right after `generate_sample_data`. -/
def profitabilityTable (seed : ℕ) : List ProfitabilityRecord :=
  calcProfitability generateRoutes (generatePassengerData seed)
    (generateCostData seed)

/-- Every generated passenger record has nonnegative revenue. -/
theorem generatePassengerData_revenue_nonneg (seed : ℕ) :
    ∀ p ∈ generatePassengerData seed, 0 ≤ p.revenue := by
  intro p hp
  obtain ⟨i, r, month, hr, hm, rfl⟩ := mem_generatePassengerData hp
  obtain ⟨hdist, -, -⟩ := generateRoutes_fields r hr
  have hprice : 0 < baseFare r.distance_miles r.route_class *
      getSeasonalFactor month r.route_class *
      noiseFactor seed ((i * 12 + month) * 4 + 1) :=
    mul_pos (mul_pos (baseFare_pos _ _ (le_of_lt hdist))
      (getSeasonalFactor_pos _ _)) (noiseFactor_pos _ _)
  exact mul_nonneg (Nat.cast_nonneg _) (le_of_lt hprice)

/-- When every route finds a cost record and a nonempty passenger group,
the profitability join keeps exactly the route ids, in order. -/
theorem calcProfitability_ids (pax : List PassengerRecord)
    (costs : List CostRecord) :
    ∀ routes : List Route,
      (∀ r ∈ routes, ∃ c ∈ costs, c.route_id = r.route_id) →
      (∀ r ∈ routes,
        (pax.filter (fun p => p.route_id = r.route_id)).isEmpty = false) →
      (calcProfitability routes pax costs).map (fun x => x.route_id)
        = routes.map (fun r => r.route_id) := by
  intro routes
  induction routes with
  | nil => intro _ _; rfl
  | cons a l ih =>
    intro hc hp
    obtain ⟨c0, hc0, hceq⟩ := hc a (List.mem_cons_self a l)
    have hsome : (costs.find? (fun c => c.route_id = a.route_id)).isSome := by
      rw [List.find?_isSome]
      exact ⟨c0, hc0, by simpa using hceq⟩
    cases hfind : costs.find? (fun c => c.route_id = a.route_id) with
    | none => rw [hfind] at hsome; simp at hsome
    | some c =>
      have hemp := hp a (List.mem_cons_self a l)
      unfold calcProfitability
      rw [List.filterMap_cons]
      dsimp only
      rw [hfind]
      dsimp only
      rw [hemp]
      simp only [Bool.false_eq_true, if_false, List.map_cons]
      refine congrArg₂ _ rfl ?_
      exact ih (fun r hr => hc r (List.mem_cons_of_mem a hr))
        (fun r hr => hp r (List.mem_cons_of_mem a hr))

/-- The profitability table of a run carries exactly the generated route
ids, in order. -/
theorem profitabilityTable_ids (seed : ℕ) :
    (profitabilityTable seed).map (fun x => x.route_id)
      = generateRoutes.map (fun r => r.route_id) := by
  apply calcProfitability_ids
  · intro r hr
    exact ⟨mkCostRecord seed r, List.mem_map_of_mem _ hr, rfl⟩
  · intro r hr
    have hcount := generatePassengerData_count seed hr
    rw [List.countP_eq_length_filter] at hcount
    rw [List.isEmpty_eq_false]
    intro hnil
    rw [hnil] at hcount
    simp at hcount

/-- In a profitability table with pairwise-distinct ids, exactly one row
carries the id of a member. -/
theorem countP_prof_id_eq_one {l : List ProfitabilityRecord}
    (hnd : (l.map (fun x => x.route_id)).Nodup)
    {x : ProfitabilityRecord} (hx : x ∈ l) :
    l.countP (fun y => y.route_id = x.route_id) = 1 := by
  induction l with
  | nil => cases hx
  | cons a l ih =>
    rw [List.map_cons, List.nodup_cons] at hnd
    rcases List.mem_cons.mp hx with rfl | hmem
    · rw [List.countP_cons_of_pos _ _ (by simp)]
      have hzero : l.countP (fun y => y.route_id = x.route_id) = 0 := by
        rw [List.countP_eq_zero]
        intro b hb
        simp only [decide_eq_true_eq]
        intro heq
        exact hnd.1 (heq ▸ List.mem_map_of_mem (fun y => y.route_id) hb)
      rw [hzero]
    · have hne : ¬(a.route_id = x.route_id) := by
        intro heq
        exact hnd.1 (heq ▸ List.mem_map_of_mem (fun y => y.route_id) hmem)
      rw [List.countP_cons_of_neg _ _ (by simpa using hne)]
      exact ih hnd.2 hmem

/-- Splitting a count along three pointwise mutually exclusive and
exhaustive classifiers. -/
theorem countP_tri_split {α : Type} (p q r s : α → Bool) (l : List α)
    (h : ∀ a ∈ l, (p a).toNat + (q a).toNat + (r a).toNat = 1) :
    l.countP (fun a => s a && p a) + l.countP (fun a => s a && q a) +
      l.countP (fun a => s a && r a) = l.countP s := by
  induction l with
  | nil => rfl
  | cons a l ih =>
    have ha := h a (List.mem_cons_self a l)
    have ih2 := ih (fun b hb => h b (List.mem_cons_of_mem a hb))
    rw [List.countP_cons, List.countP_cons, List.countP_cons, List.countP_cons]
    cases hs : s a <;> cases hpa : p a <;> cases hqa : q a <;>
      cases hra : r a <;> simp_all <;> omega

/-- The three bucket counts, written as filtered counts over the table. -/
theorem bucketCount_eq (P : List ProfitabilityRecord) (rid : String) :
    bucketCount (recommendationsFrom P) rid
      = P.countP (fun x => (x.route_id == rid) && isExpand x)
        + P.countP (fun x => (x.route_id == rid) && isOptimize x)
        + P.countP (fun x => (x.route_id == rid) && isDiscontinue x) := by
  simp only [bucketCount, recommendationsFrom, List.count_eq_countP,
    List.countP_map, List.countP_filter]
  rfl

/-- Every profitability row with nonnegative revenue and the join
margin equation falls in exactly one of the three classification
predicates. -/
theorem classification_exactly_one {rec : ProfitabilityRecord}
    (hrev : 0 ≤ rec.revenue)
    (hm : rec.profit_margin =
      if rec.revenue = 0 then 0 else rec.profit / rec.revenue * 100) :
    (isExpand rec).toNat + (isOptimize rec).toNat +
      (isDiscontinue rec).toNat = 1 := by
  by_cases hprofit : rec.profit ≤ 0
  · have hmle : rec.profit_margin ≤ 15 := by
      by_cases h0 : rec.revenue = 0
      · rw [hm, if_pos h0]; norm_num
      · have hrpos : 0 < rec.revenue := lt_of_le_of_ne hrev (Ne.symm h0)
        rw [hm, if_neg h0]
        have hdiv : rec.profit / rec.revenue ≤ 0 :=
          div_nonpos_iff.mpr (Or.inr ⟨hprofit, le_of_lt hrpos⟩)
        nlinarith
    have hnm : ¬(marginThreshold < rec.profit_margin) := by
      rw [marginThreshold]; exact not_lt.mpr hmle
    simp [isExpand, isOptimize, isDiscontinue, hprofit, hnm,
      not_lt.mpr hprofit]
  · push_neg at hprofit
    by_cases hattr : marginThreshold < rec.profit_margin ∧
        roiThreshold < rec.roi
    · simp [isExpand, isOptimize, isDiscontinue, hattr, hprofit,
        not_le.mpr hprofit]
    · simp [isExpand, isOptimize, isDiscontinue, hattr, hprofit,
        not_le.mpr hprofit]

/-- Claim C2: for every seed, the profitability table of a run carries
exactly the generated route ids, and every route_id of the table appears
in exactly one of the three recommendation buckets — the classification
predicates are exhaustive and mutually exclusive over the table. -/
theorem recommendation_buckets_partition (seed : ℕ) :
    calculate_profitability
        (generate_sample_data seed AirlineRouteAnalyzer.new)
      = .ok (profitabilityTable seed) ∧
    ((profitabilityTable seed).map (fun x => x.route_id)
      = generateRoutes.map (fun r => r.route_id)) ∧
    ((profitabilityTable seed).map (fun x => x.route_id)).Forall
      (fun rid =>
        bucketCount (recommendationsFrom (profitabilityTable seed)) rid
          = 1) := by
  refine ⟨rfl, profitabilityTable_ids seed, ?_⟩
  rw [List.forall_iff_forall_mem]
  intro rid hrid
  obtain ⟨rec0, hrec0, rfl⟩ := List.mem_map.mp hrid
  have hnd : ((profitabilityTable seed).map (fun x => x.route_id)).Nodup := by
    rw [profitabilityTable_ids seed]
    exact generateRoutes_ids_nodup
  have hone : ∀ a ∈ profitabilityTable seed,
      (isExpand a).toNat + (isOptimize a).toNat +
        (isDiscontinue a).toNat = 1 := by
    intro a ha
    obtain ⟨r, -, -, -, hrevsum, -, hmargin, -⟩ := calcProfitability_mem ha
    apply classification_exactly_one _ hmargin
    rw [hrevsum]
    apply List.sum_nonneg
    intro x hx
    obtain ⟨p, hpf, rfl⟩ := List.mem_map.mp hx
    exact generatePassengerData_revenue_nonneg seed p
      (List.mem_of_mem_filter hpf)
  rw [bucketCount_eq,
    countP_tri_split isExpand isOptimize isDiscontinue
      (fun x => x.route_id == rec0.route_id) (profitabilityTable seed) hone]
  rw [List.countP_congr (fun x _ => by simp : ∀ x ∈ profitabilityTable seed,
    ((x.route_id == rec0.route_id) = true) ↔
      ((x.route_id = rec0.route_id : Bool) = true))]
  exact countP_prof_id_eq_one hnd hrec0

/-- A pipeline run that exits 0 attempted every step, in order. -/
theorem runSteps_exit_zero (fails : PipelineStep → Bool) :
    ∀ l : List PipelineStep, (runSteps fails l).1 = 0 →
      (runSteps fails l).2 = l.map Event.stepCall := by
  intro l
  induction l with
  | nil => intro _; rfl
  | cons s rest ih =>
    intro h
    unfold runSteps at h ⊢
    by_cases hf : fails s = true
    · rw [if_pos hf] at h
      simp at h
    · rw [if_neg hf] at h ⊢
      dsimp only at h ⊢
      rw [List.map_cons, ih h]

/-- A pipeline run exits 0 or 1, exits 0 exactly when no attempted step
raises, and on exit 1 the error was logged. -/
theorem runSteps_exit_cases (fails : PipelineStep → Bool) :
    ∀ l : List PipelineStep,
      ((runSteps fails l).1 = 0 ∨ (runSteps fails l).1 = 1) ∧
      ((runSteps fails l).1 = 0 ↔ ∀ s ∈ l, fails s = false) ∧
      ((runSteps fails l).1 = 1 →
        Event.errorLogged ∈ (runSteps fails l).2) := by
  intro l
  induction l with
  | nil => exact ⟨Or.inl rfl, by simp [runSteps], by simp [runSteps]⟩
  | cons s rest ih =>
    unfold runSteps
    by_cases hf : fails s = true
    · rw [if_pos hf]
      refine ⟨Or.inr rfl, ?_, ?_⟩
      · simp only [List.mem_cons]
        constructor
        · intro h; cases h
        · intro h
          exact absurd hf (by simp [h s (Or.inl rfl)])
      · intro _
        exact List.mem_cons_of_mem _ (List.mem_cons_self _ _)
    · rw [if_neg hf]
      dsimp only
      refine ⟨ih.1, ?_, ?_⟩
      · rw [ih.2.1]
        simp only [List.mem_cons]
        constructor
        · intro h t ht
          rcases ht with rfl | ht
          · exact Bool.eq_false_iff.mpr hf
          · exact h t ht
        · intro h t ht
          exact h t (Or.inr ht)
      · intro h
        exact List.mem_cons_of_mem _ (ih.2.2 h)

/-- The first listed step is always attempted. -/
theorem runSteps_first_attempted (fails : PipelineStep → Bool)
    (s : PipelineStep) (l : List PipelineStep) :
    Event.stepCall s ∈ (runSteps fails (s :: l)).2 := by
  unfold runSteps
  by_cases hf : fails s = true
  · rw [if_pos hf]
    exact List.mem_cons_self _ _
  · rw [if_neg hf]
    exact List.mem_cons_self _ _

/-- Claim C9: on every successful run (exit code 0), the trace of the driver
of analyzer calls is exactly generate → calculate_profitability →
generate_insights → (create_visualizations unless --no-viz) →
generate_recommendations → export_results, in that order. -/
theorem main_pipeline_order (args : CliArgs) (fails : PipelineStep → Bool)
    (h : (main_model args fails).1 = 0) :
    traceSteps (main_model args fails).2 = pipelineSeq args.no_viz := by
  have hexit : (runSteps fails (pipelineSeq args.no_viz)).1 = 0 := h
  have htr := runSteps_exit_zero fails (pipelineSeq args.no_viz) hexit
  have h2 : (main_model args fails).2 =
      (if args.use_sample_data then []
        else [Event.warnRealDataUnimplemented]) ++
        (runSteps fails (pipelineSeq args.no_viz)).2 := rfl
  rw [h2, htr]
  unfold traceSteps
  rw [List.filterMap_append, List.filterMap_map]
  cases hu : args.use_sample_data <;>
    simp [Function.comp_def]

/-- Claim C9 witness: with both flags defaulted (sample data requested,
visualization enabled) and no step failing, the run succeeds and the
trace is the full contract order. -/
theorem main_pipeline_order_witness :
    traceSteps (main_model ⟨true, false⟩ (fun _ => false)).2 =
      pipelineSeq false :=
  main_pipeline_order ⟨true, false⟩ (fun _ => false) rfl

/-- Claim C10: the driver never lets an exception escape — it always
returns exit code 0 or 1, returns 0 exactly when every attempted pipeline
step completes, logs the error whenever it returns 1, and when
`--use-sample-data` is absent it logs the "real data loading not
implemented" warning first and still calls `generate_sample_data`. -/
theorem main_catches_all_and_falls_back (args : CliArgs)
    (fails : PipelineStep → Bool) :
    ((main_model args fails).1 = 0 ∨ (main_model args fails).1 = 1) ∧
    ((main_model args fails).1 = 0 ↔
      ∀ s ∈ pipelineSeq args.no_viz, fails s = false) ∧
    ((main_model args fails).1 = 1 →
      Event.errorLogged ∈ (main_model args fails).2) ∧
    (args.use_sample_data = false →
      (main_model args fails).2.head? =
        some Event.warnRealDataUnimplemented ∧
      Event.stepCall PipelineStep.generateData ∈
        (main_model args fails).2) := by
  have hexit : (main_model args fails).1 =
      (runSteps fails (pipelineSeq args.no_viz)).1 := rfl
  have htrace : (main_model args fails).2 =
      (if args.use_sample_data then []
        else [Event.warnRealDataUnimplemented]) ++
        (runSteps fails (pipelineSeq args.no_viz)).2 := rfl
  obtain ⟨h01, hiff, hlog⟩ := runSteps_exit_cases fails (pipelineSeq args.no_viz)
  refine ⟨by rw [hexit]; exact h01, by rw [hexit]; exact hiff, ?_, ?_⟩
  · intro h1
    rw [htrace]
    exact List.mem_append_right _ (hlog (hexit ▸ h1))
  · intro hu
    rw [htrace, hu]
    have hseq : pipelineSeq args.no_viz = PipelineStep.generateData ::
        ([.calcProfit, .genInsights] ++
          (if args.no_viz then [] else [.createViz]) ++
          [.genRecs, .exportResults]) := by
      cases args.no_viz <;> rfl
    constructor
    · simp
    · refine List.mem_append_right _ ?_
      rw [hseq]
      exact runSteps_first_attempted fails _ _

/-- Claim C10 witness: with `--use-sample-data` absent, `--no-viz` set
and every pipeline call raising, the run logs the warning, attempts
generation, logs the error and exits 1 — nothing propagates. -/
theorem main_catches_all_witness :
    (main_model ⟨false, true⟩ (fun _ => true)).1 = 1 ∧
    Event.errorLogged ∈ (main_model ⟨false, true⟩ (fun _ => true)).2 ∧
    (main_model ⟨false, true⟩ (fun _ => true)).2.head? =
      some Event.warnRealDataUnimplemented ∧
    Event.stepCall PipelineStep.generateData ∈
      (main_model ⟨false, true⟩ (fun _ => true)).2 := by
  have h := main_catches_all_and_falls_back ⟨false, true⟩ (fun _ => true)
  have h1 : (main_model ⟨false, true⟩ (fun _ => true)).1 = 1 := rfl
  exact ⟨h1, h.2.2.1 h1, (h.2.2.2 rfl).1, (h.2.2.2 rfl).2⟩

end AirlineAnalysis
